import Mathlib

/-!
Verification of the Quirino personal-finance assistant.

The definitions below shallowly embed the ingestion-and-reconciliation
pipeline of the application: the Gemini classifier gateway
(`services/geminiService.ts`), the submission / delete / import handlers of
the top-level `App` component, and the Supabase persistence layer
(`services/api.ts`).  External effects (the classifier round trip, the
durable-store calls, the browser confirm dialog, fresh UUIDs and the clock)
are passed in as explicit parameters so that every code path of the source
is a total, executable Lean function.
-/

namespace Quirino

/-- `types.ts`: `TransactionType = 'income' | 'expense'`. -/
inductive TransactionType where
  | income
  | expense
deriving Repr, DecidableEq

/-- `types.ts`: the `Transaction` interface (amounts are modelled as
integers; the claims under study do not depend on decimal precision). -/
structure Transaction where
  id : String
  date : String
  description : String
  amount : Int
  category : String
  type : TransactionType
  userId : Option String
deriving Repr, DecidableEq

/-- `types.ts`: the two roles of a `ChatMessage`. -/
inductive Role where
  | user
  | model
deriving Repr, DecidableEq

/-- `types.ts`: the `ChatMessage` interface. -/
structure ChatMessage where
  id : String
  role : Role
  text : String
  imageUri : Option String
  isAudio : Bool
deriving Repr, DecidableEq

/-- `types.ts`: the `UserProfile` interface. -/
structure UserProfile where
  id : String
  email : Option String
  name : String
  token : Option String
deriving Repr, DecidableEq

/-- `types.ts`: the `ProcessingStatus` enum. -/
inductive ProcessingStatus where
  | IDLE
  | RECORDING
  | PROCESSING
  | SUCCESS
  | ERROR
deriving Repr, DecidableEq

/-- `types.ts`: the `transactionData` payload of a `GeminiAnalysisResult`. -/
structure TransactionData where
  description : String
  amount : Int
  category : String
  type : TransactionType
deriving Repr, DecidableEq

/-- `types.ts`: the two values of the `action` field. -/
inductive AnalysisAction where
  | ADD_TRANSACTION
  | CHAT_ONLY
deriving Repr, DecidableEq

/-- `types.ts`: the `GeminiAnalysisResult` interface; `transactionData`
is optional both in the TypeScript type and in the response schema. -/
structure GeminiAnalysisResult where
  action : AnalysisAction
  transactionData : Option TransactionData
  replyMessage : String
deriving Repr, DecidableEq

/-- `geminiService.ts` line 35: the only required fields of
`analysisSchema` are `action` and `replyMessage`; `transactionData` is
not required, so a schema-valid response may omit it. -/
def analysisSchemaRequired : List String := ["action", "replyMessage"]

/-- JavaScript truthiness of an optional string: `null`/`undefined` and
the empty string are falsy. -/
def truthyStr : Option String → Bool
  | none => false
  | some s => s != ""

/-- JavaScript truthiness of an optional number: `null`/`undefined` and
`0` are falsy. -/
def truthyNum : Option Int → Bool
  | none => false
  | some n => n != 0

/-- `geminiService.ts` lines 74-99: one element of the `parts` array sent
to the classifier. -/
inductive Part where
  | inlineData (mimeType : String) (data : String)
  | text (s : String)
deriving Repr, DecidableEq

/-- Fixed prompt attached to audio input (`geminiService.ts` line 87). -/
def audioPrompt : String :=
  "Analise este áudio. O usuário está relatando uma despesa ou receita? Ou fazendo uma pergunta?"

/-- Fixed prompt attached to image input without text (line 96). -/
def imagePrompt : String :=
  "Analise esta imagem (recibo/nota) e extraia os dados financeiros."

/-- `geminiService.ts` lines 74-99: assemble the `parts` array.  Audio
takes priority, then image (with the user text or a default prompt),
then bare text; all three tests use JavaScript truthiness. -/
def buildParts (text image audio : Option String) : List Part :=
  if truthyStr audio then
    [Part.inlineData "audio/wav" (audio.getD ""), Part.text audioPrompt]
  else if truthyStr image then
    Part.inlineData "image/jpeg" (image.getD "") ::
      (if truthyStr text then [Part.text (text.getD "")] else [Part.text imagePrompt])
  else if truthyStr text then
    [Part.text (text.getD "")]
  else
    []

/-- `geminiService.ts` lines 8-9 and 77-80: model routing. -/
def GEMINI_3_MODEL : String := "gemini-3-pro-preview"

/-- The lower-latency variant used for audio. -/
def GEMINI_AUDIO_MODEL : String := "gemini-2.5-flash"

/-- Model selected for a request (`geminiService.ts` lines 77-80). -/
def selectModel (audio : Option String) : String :=
  if truthyStr audio then GEMINI_AUDIO_MODEL else GEMINI_3_MODEL

/-- Behaviour of the external classifier round trip as observed by
`processInputWithGemini`: the call can throw, return an empty body,
return a body that fails JSON parsing, or return a parsed result. -/
inductive ServiceBehavior where
  | throws
  | emptyBody
  | badJson
  | ok (r : GeminiAnalysisResult)
deriving Repr, DecidableEq

/-- A service behaviour counts as a failure unless it produced a parsed
result. -/
def ServiceBehavior.fails : ServiceBehavior → Bool
  | .ok _ => false
  | _ => true

/-- `geminiService.ts` lines 73-119: the body of the `try` block.  It
throws (`Except.error`) when no part was assembled, when the call
throws, when the response body is empty, and when parsing fails;
otherwise it returns the parsed result. -/
def processAttempt (text image audio : Option String)
    (svc : ServiceBehavior) : Except String GeminiAnalysisResult :=
  let parts := buildParts text image audio
  if parts.length = 0 then
    Except.error "No input provided"
  else
    match svc with
    | ServiceBehavior.throws => Except.error "network failure"
    | ServiceBehavior.emptyBody => Except.error "No response from Gemini"
    | ServiceBehavior.badJson => Except.error "JSON parse failure"
    | ServiceBehavior.ok r => Except.ok r

/-- `geminiService.ts` lines 123-126: the fixed fallback outcome built by
the `catch` handler. -/
def fallbackResult : GeminiAnalysisResult :=
  { action := AnalysisAction.CHAT_ONLY
    transactionData := none
    replyMessage := "Desculpe, tive um problema ao processar sua solicitação. Tente novamente." }

/-- `geminiService.ts` lines 41-128: `processInputWithGemini`.  The whole
body is wrapped in try/catch, so every thrown error is converted into
`fallbackResult`.  `hist` and `persona` only feed the system
instruction and do not influence the returned outcome. -/
def processInputWithGemini (text image audio : Option String)
    (_hist : List Transaction) (_persona : String)
    (svc : ServiceBehavior) : GeminiAnalysisResult :=
  match processAttempt text image audio svc with
  | Except.ok r => r
  | Except.error _ => fallbackResult

/-- The pieces of `App` component state that the ingestion pipeline
reads or mutates (`App.tsx` lines 17-23). -/
structure AppState where
  transactions : List Transaction
  chatHistory : List ChatMessage
  status : ProcessingStatus
deriving Repr, DecidableEq

/-- Observable outcome of one `processSubmission` run: the final state,
whether the classifier gateway was invoked, whether a durable insert was
issued, the non-blocking warnings shown (`alert`), and any error raised
to the caller (the source function never throws, so this is `none` on
every path). -/
structure SubmissionResult where
  state : AppState
  classifierCalled : Bool
  insertIssued : Bool
  warnings : List String
  raised : Option String
deriving Repr, DecidableEq

/-- Warning shown when the durable insert after an optimistic append
fails (`App.tsx` line 305). -/
def saveFailureWarning : String :=
  "Erro ao salvar transação no servidor, mas está salva na memória."

/-- `App.tsx` line 282: the base64 payload handed to the gateway is
`image ? image.split(',')[1] : null`; it is absent when the data URL
has no comma. -/
def imagePayload (image : Option String) : Option String :=
  if truthyStr image then ((image.getD "").splitOn ",").get? 1 else none

/-- `App.tsx` lines 270-276: the user-authored chat message recorded for
a submission.  Its text is `text || (audio ? mic-label : camera-label)`
and `imageUri` is `image || undefined`. -/
def mkUserMessage (userMsgId : String)
    (text image audio : Option String) : ChatMessage :=
  { id := userMsgId
    role := Role.user
    text := if truthyStr text then text.getD ""
            else if truthyStr audio then "🎤 [Áudio enviado]"
            else "📷 [Imagem enviada]"
    imageUri := if truthyStr image then image else none
    isAudio := truthyStr audio }

/-- `App.tsx` lines 289-297: the Transaction built from
`transactionData`; `description`, `amount` and `category` fall back to
defaults via `||`, `type` is copied as-is, and `userId` is forced to
the current session id. -/
def mkNewTransaction (u : UserProfile) (td : TransactionData)
    (txId nowIso : String) : Transaction :=
  { id := txId
    date := nowIso
    description := if td.description != "" then td.description else "Geral"
    amount := if td.amount != 0 then td.amount else 0
    category := if td.category != "" then td.category else "Geral"
    type := td.type
    userId := some u.id }

/-- `App.tsx` lines 308-312: the confirmation chat message for an added
Transaction. -/
def mkConfirmMessage (replyMsgId : String) (newTx : Transaction)
    (reply : String) : ChatMessage :=
  { id := replyMsgId
    role := Role.model
    text := "✅ " ++ newTx.description ++ " (R$ " ++ toString newTx.amount
      ++ ") adicionado. " ++ reply
    imageUri := none
    isAudio := false }

/-- `App.tsx` lines 314-318: the plain reply chat message of the
chat-only branch. -/
def mkReplyMessage (replyMsgId reply : String) : ChatMessage :=
  { id := replyMsgId
    role := Role.model
    text := reply
    imageUri := none
    isAudio := false }

/-- `App.tsx` lines 264-323: `processSubmission`.  The classifier
behaviour, the durable-insert outcome, the fresh UUIDs and the clock
are explicit parameters.  JavaScript truthiness is preserved: the
empty string counts as an absent input, `transactionData` fields fall
back to defaults via `||`, and the image payload is
`image.split(',')[1]` (absent when the data URL has no comma). -/
def processSubmission (user : Option UserProfile)
    (text image audio : Option String)
    (svc : ServiceBehavior) (saveSucceeds : Bool)
    (userMsgId txId replyMsgId nowIso : String)
    (persona : String) (s : AppState) : SubmissionResult :=
  match user with
  | none => { state := s, classifierCalled := false, insertIssued := false,
              warnings := [], raised := none }
  | some u =>
    if !truthyStr text && !truthyStr image && !truthyStr audio then
      { state := s, classifierCalled := false, insertIssued := false,
        warnings := [], raised := none }
    else
      let userMsg := mkUserMessage userMsgId text image audio
      let result := processInputWithGemini text (imagePayload image) audio
        s.transactions persona svc
      match result.action, result.transactionData with
      | AnalysisAction.ADD_TRANSACTION, some td =>
        let newTx := mkNewTransaction u td txId nowIso
        { state :=
            { transactions := s.transactions ++ [newTx]
              chatHistory := s.chatHistory ++
                [userMsg, mkConfirmMessage replyMsgId newTx result.replyMessage]
              status := ProcessingStatus.SUCCESS }
          classifierCalled := true
          insertIssued := true
          warnings := if saveSucceeds then [] else [saveFailureWarning]
          raised := none }
      | _, _ =>
        { state :=
            { transactions := s.transactions
              chatHistory := s.chatHistory ++
                [userMsg, mkReplyMessage replyMsgId result.replyMessage]
              status := ProcessingStatus.SUCCESS }
          classifierCalled := true
          insertIssued := false
          warnings := []
          raised := none }

/-- `App.tsx` lines 141-156: `handleDeleteTransaction`.  Returns the
final transactions list and the alerts shown.  `confirmed` is the
answer of the browser confirm dialog and `deleteSucceeds` the outcome
of the remote delete. -/
def handleDeleteTransaction (user : Option UserProfile) (id : String)
    (confirmed : Bool) (deleteSucceeds : Bool)
    (txs : List Transaction) : List Transaction × List String :=
  match user with
  | none => (txs, [])
  | some _ =>
    if confirmed then
      let prevTransactions := txs
      let optimistic := txs.filter (fun t => t.id != id)
      if deleteSucceeds then (optimistic, [])
      else (prevTransactions, ["Erro ao excluir no servidor."])
    else (txs, [])


/-- A row of the remote `transactions` table.  Columns other than
`user_id` are nullable because bulk import can insert records with
missing fields (`importedData` is untyped in the source). -/
structure Row where
  id : Option String
  user_id : String
  date : Option String
  description : Option String
  amount : Option Int
  category : Option String
  type : Option TransactionType
deriving Repr, DecidableEq

/-- An untyped transaction record as it flows through JavaScript: the
result of `JSON.parse` on a backup file or of the remote row mapping.
Every field may be absent. -/
structure RawRecord where
  id : Option String
  date : Option String
  description : Option String
  amount : Option Int
  category : Option String
  type : Option TransactionType
  userId : Option String
deriving Repr, DecidableEq

namespace SupabaseAPI

/-- `api.ts` lines 120-128: the insert payload of `saveTransaction`;
`user_id` is taken from the session profile, never from the
Transaction. -/
def payloadOfTransaction (user : UserProfile) (t : Transaction) : Row :=
  { id := some t.id
    user_id := user.id
    date := some t.date
    description := some t.description
    amount := some t.amount
    category := some t.category
    type := some t.type }

/-- The same payload construction applied to an untyped imported record
(`api.ts` lines 160-168 when called from `handleImportData`). -/
def payloadOfRaw (user : UserProfile) (r : RawRecord) : Row :=
  { id := r.id
    user_id := user.id
    date := r.date
    description := r.description
    amount := r.amount
    category := r.category
    type := r.type }

/-- `api.ts` lines 91-115: `getTransactions` selects the rows whose
`user_id` equals the session id and maps them back to records;
`Number(row.amount)` turns a missing amount into `0`. -/
def getTransactions (user : UserProfile) (db : List Row) : List RawRecord :=
  (db.filter (fun row => row.user_id == user.id)).map (fun row =>
    { id := row.id
      date := row.date
      description := row.description
      amount := some (row.amount.getD 0)
      category := row.category
      type := row.type
      userId := some row.user_id })

/-- `api.ts` lines 117-140: `saveTransaction` inserts one payload row. -/
def saveTransaction (user : UserProfile) (t : Transaction)
    (db : List Row) : List Row :=
  db ++ [payloadOfTransaction user t]

/-- `api.ts` lines 142-152: `deleteTransaction` removes the rows
matching both the record id and the session id. -/
def deleteTransaction (user : UserProfile) (id : String)
    (db : List Row) : List Row :=
  db.filter (fun row => !(row.id == some id && row.user_id == user.id))

/-- `api.ts` lines 154-173: `updateAllTransactions` deletes every row of
the session owner, then inserts the mapped payload when the new list
is non-empty. -/
def updateAllTransactions (user : UserProfile) (txs : List Transaction)
    (db : List Row) : List Row :=
  let cleared := db.filter (fun row => row.user_id != user.id)
  if txs.length > 0 then cleared ++ txs.map (payloadOfTransaction user)
  else cleared

/-- `updateAllTransactions` as invoked from `handleImportData`, where
the argument is the untyped parsed backup array. -/
def updateAllRaw (user : UserProfile) (rs : List RawRecord)
    (db : List Row) : List Row :=
  let cleared := db.filter (fun row => row.user_id != user.id)
  if rs.length > 0 then cleared ++ rs.map (payloadOfRaw user)
  else cleared

end SupabaseAPI

/-- Outcome of `JSON.parse` on a backup file, as far as
`handleImportData` inspects it: an array of untyped records, or some
other JSON value. -/
inductive ImportedJson where
  | arr (xs : List RawRecord)
  | nonArray
deriving Repr, DecidableEq

/-- `App.tsx` line 243: the per-element validation
`t.id && t.amount && t.date` — JavaScript truthiness on all three
fields. -/
def importRecordValid (r : RawRecord) : Bool :=
  truthyStr r.id && truthyNum r.amount && truthyStr r.date

/-- Observable outcome of one `handleImportData` run: the in-memory
transactions list, the remote table, the alerts shown, and whether
the restore was performed. -/
structure ImportResult where
  mem : List RawRecord
  db : List Row
  alerts : List String
  imported : Bool
deriving Repr, DecidableEq

/-- `App.tsx` lines 233-262: `handleImportData`.  `haveFile` is whether
a file was chosen, `parsed` the outcome of `JSON.parse` (`Except.error`
for malformed JSON), `confirmed` the confirm-dialog answer.  The import
is performed only for an array in which every element passes the
truthiness validation; every other path leaves both stores unchanged. -/
def handleImportData (user : Option UserProfile) (haveFile : Bool)
    (parsed : Except Unit ImportedJson) (confirmed : Bool)
    (mem : List RawRecord) (db : List Row) : ImportResult :=
  if !haveFile then { mem := mem, db := db, alerts := [], imported := false }
  else
    match user with
    | none => { mem := mem, db := db, alerts := [], imported := false }
    | some u =>
      match parsed with
      | Except.error _ =>
        { mem := mem, db := db, alerts := ["Erro ao ler arquivo."], imported := false }
      | Except.ok ImportedJson.nonArray =>
        { mem := mem, db := db, alerts := ["Arquivo inválido."], imported := false }
      | Except.ok (ImportedJson.arr xs) =>
        if xs.all importRecordValid then
          if confirmed then
            { mem := xs
              db := SupabaseAPI.updateAllRaw u xs db
              alerts := ["Dados restaurados com sucesso!"]
              imported := true }
          else { mem := mem, db := db, alerts := [], imported := false }
        else
          { mem := mem, db := db, alerts := ["Arquivo inválido."], imported := false }

/-- Concrete user fixture for the witnesses below. -/
def user0 : UserProfile :=
  { id := "user-1", email := none, name := "User", token := none }

/-- Concrete initial state fixture for the witnesses below. -/
def state0 : AppState :=
  { transactions := [], chatHistory := [], status := ProcessingStatus.IDLE }

/-- A schema-valid classifier response whose `transactionData.category`
is the empty string (the schema requires only `action` and
`replyMessage`, and the empty string is a valid STRING value). -/
def respEmptyCategory : GeminiAnalysisResult :=
  { action := AnalysisAction.ADD_TRANSACTION
    transactionData := some
      { description := "pão", amount := 30, category := "", type := TransactionType.expense }
    replyMessage := "Anotado!" }

/-- When at least one raw input is truthy, the early-return guard of
`processSubmission` is false. -/
theorem submission_guard_false {text image audio : Option String}
    (hin : (truthyStr text || truthyStr image || truthyStr audio) = true) :
    (!truthyStr text && !truthyStr image && !truthyStr audio) = false := by
  cases h1 : truthyStr text <;> cases h2 : truthyStr image <;>
    cases h3 : truthyStr audio <;> simp_all

/-- Unfolding lemma: the ADD_TRANSACTION-with-data branch of
`processSubmission`. -/
theorem processSubmission_add_eq
    (u : UserProfile) (text image audio : Option String)
    (svc : ServiceBehavior) (r : GeminiAnalysisResult) (td : TransactionData)
    (saveSucceeds : Bool) (userMsgId txId replyMsgId nowIso persona : String)
    (s : AppState)
    (hin : (truthyStr text || truthyStr image || truthyStr audio) = true)
    (hr : processInputWithGemini text (imagePayload image) audio
      s.transactions persona svc = r)
    (hact : r.action = AnalysisAction.ADD_TRANSACTION)
    (hdata : r.transactionData = some td) :
    processSubmission (some u) text image audio svc saveSucceeds userMsgId
        txId replyMsgId nowIso persona s =
      { state :=
          { transactions := s.transactions ++ [mkNewTransaction u td txId nowIso]
            chatHistory := s.chatHistory ++
              [mkUserMessage userMsgId text image audio,
               mkConfirmMessage replyMsgId (mkNewTransaction u td txId nowIso)
                 r.replyMessage]
            status := ProcessingStatus.SUCCESS }
        classifierCalled := true
        insertIssued := true
        warnings := if saveSucceeds then [] else [saveFailureWarning]
        raised := none } := by
  have hg := submission_guard_false hin
  simp only [processSubmission, hg, Bool.false_eq_true, if_false, hr, hact, hdata]

/-- Unfolding lemma: the chat-only branch of `processSubmission`
(action CHAT_ONLY, or ADD_TRANSACTION without transactionData). -/
theorem processSubmission_chat_eq
    (u : UserProfile) (text image audio : Option String)
    (svc : ServiceBehavior) (r : GeminiAnalysisResult)
    (saveSucceeds : Bool) (userMsgId txId replyMsgId nowIso persona : String)
    (s : AppState)
    (hin : (truthyStr text || truthyStr image || truthyStr audio) = true)
    (hr : processInputWithGemini text (imagePayload image) audio
      s.transactions persona svc = r)
    (hnc : r.action = AnalysisAction.CHAT_ONLY ∨ r.transactionData = none) :
    processSubmission (some u) text image audio svc saveSucceeds userMsgId
        txId replyMsgId nowIso persona s =
      { state :=
          { transactions := s.transactions
            chatHistory := s.chatHistory ++
              [mkUserMessage userMsgId text image audio,
               mkReplyMessage replyMsgId r.replyMessage]
            status := ProcessingStatus.SUCCESS }
        classifierCalled := true
        insertIssued := false
        warnings := []
        raised := none } := by
  have hg := submission_guard_false hin
  rcases hnc with hc | hd
  · cases hd : r.transactionData <;>
      simp only [processSubmission, hg, Bool.false_eq_true, if_false, hr, hc, hd]
  · cases ha : r.action <;>
      simp only [processSubmission, hg, Bool.false_eq_true, if_false, hr, ha, hd]

/-- C1: For every classification request, processInputWithGemini never
raises past its boundary: whenever the external service call fails
(network failure, empty response body, or a response that fails JSON
parsing / schema validation), it returns the ChatOnly outcome carrying
the fixed apology reply text, and in all cases it returns a well-formed
ClassificationOutcome (either the fixed fallback or the parsed result
itself). -/
theorem classifier_gateway_never_raises
    (text image audio : Option String) (hist : List Transaction)
    (persona : String) (svc : ServiceBehavior) :
    (svc.fails = true →
      processInputWithGemini text image audio hist persona svc = fallbackResult) ∧
    (processInputWithGemini text image audio hist persona svc = fallbackResult ∨
      ∃ g, svc = ServiceBehavior.ok g ∧
        processInputWithGemini text image audio hist persona svc = g) := by
  by_cases hp : buildParts text image audio = []
  · constructor
    · intro _
      cases svc <;> simp [processInputWithGemini, processAttempt, hp]
    · left
      cases svc <;> simp [processInputWithGemini, processAttempt, hp]
  · constructor
    · intro h
      cases svc <;>
        simp [processInputWithGemini, processAttempt, ServiceBehavior.fails, hp] at h ⊢
    · cases svc <;> simp [processInputWithGemini, processAttempt, hp]

/-- Witness for C1 at a concrete input: a throwing service call on a
plain-text request yields exactly the fallback outcome. -/
theorem classifier_gateway_never_raises_witness :
    processInputWithGemini (some "gastei 30 na padaria") none none [] ""
      ServiceBehavior.throws = fallbackResult :=
  (classifier_gateway_never_raises (some "gastei 30 na padaria") none none [] ""
    ServiceBehavior.throws).1 rfl

/-- C2 counterexample: for the schema-valid response whose
`transactionData.category` is `""`, the appended Transaction carries
category `"Geral"`, not the `transactionData` value `""` — so the
stored category is not exactly equal to the corresponding
`transactionData` field. -/
theorem submission_category_counterexample :
    ((processSubmission (some user0) (some "gastei 30 na padaria") none none
        (ServiceBehavior.ok respEmptyCategory) true "m1" "t1" "r1"
        "2024-01-01T00:00:00Z" "" state0).state.transactions.map
        Transaction.category) = ["Geral"] ∧
    ¬ (((processSubmission (some user0) (some "gastei 30 na padaria") none none
        (ServiceBehavior.ok respEmptyCategory) true "m1" "t1" "r1"
        "2024-01-01T00:00:00Z" "" state0).state.transactions.map
        Transaction.category) = [""]) := by
  exact ⟨rfl, by decide⟩

/-- C2 amended: for every classifier response received by
processSubmission with action = ADD_TRANSACTION and transactionData
present, exactly one Transaction is appended to the ledger; its type
and amount exactly equal the transactionData fields, and its category
equals transactionData.category whenever that field is non-empty
(an empty category is replaced by the default "Geral"). -/
theorem submission_appends_matching_transaction
    (u : UserProfile) (text image audio : Option String)
    (svc : ServiceBehavior) (r : GeminiAnalysisResult) (td : TransactionData)
    (saveSucceeds : Bool) (userMsgId txId replyMsgId nowIso persona : String)
    (s : AppState)
    (hin : (truthyStr text || truthyStr image || truthyStr audio) = true)
    (hr : processInputWithGemini text (imagePayload image) audio
      s.transactions persona svc = r)
    (hact : r.action = AnalysisAction.ADD_TRANSACTION)
    (hdata : r.transactionData = some td) :
    ∃ t, (processSubmission (some u) text image audio svc saveSucceeds
        userMsgId txId replyMsgId nowIso persona s).state.transactions
        = s.transactions ++ [t] ∧
      t.type = td.type ∧
      t.amount = td.amount ∧
      (td.category ≠ "" → t.category = td.category) ∧
      (td.category = "" → t.category = "Geral") := by
  refine ⟨mkNewTransaction u td txId nowIso, ?_, rfl, ?_, ?_, ?_⟩
  · rw [processSubmission_add_eq u text image audio svc r td saveSucceeds
      userMsgId txId replyMsgId nowIso persona s hin hr hact hdata]
  · show (if td.amount != 0 then td.amount else 0) = td.amount
    by_cases h : td.amount = 0 <;> simp [h]
  · intro h
    show (if td.category != "" then td.category else "Geral") = td.category
    simp [h]
  · intro h
    show (if td.category != "" then td.category else "Geral") = "Geral"
    simp [h]

/-- Witness for C2's amended theorem at a concrete input. -/
theorem submission_appends_matching_transaction_witness :
    ∃ t, (processSubmission (some user0) (some "almoço 25") none none
        (ServiceBehavior.ok
          { action := AnalysisAction.ADD_TRANSACTION
            transactionData := some
              { description := "almoço", amount := 25,
                category := "Alimentação", type := TransactionType.expense }
            replyMessage := "Anotado!" })
        true "m1" "t1" "r1" "2024-01-01T00:00:00Z" "" state0).state.transactions
        = state0.transactions ++ [t] ∧
      t.type = TransactionType.expense ∧
      t.amount = (25 : Int) ∧
      (("Alimentação" : String) ≠ "" → t.category = "Alimentação") ∧
      (("Alimentação" : String) = "" → t.category = "Geral") :=
  submission_appends_matching_transaction user0 (some "almoço 25") none none
    (ServiceBehavior.ok
      { action := AnalysisAction.ADD_TRANSACTION
        transactionData := some
          { description := "almoço", amount := 25,
            category := "Alimentação", type := TransactionType.expense }
        replyMessage := "Anotado!" })
    { action := AnalysisAction.ADD_TRANSACTION
      transactionData := some
        { description := "almoço", amount := 25,
          category := "Alimentação", type := TransactionType.expense }
      replyMessage := "Anotado!" }
    { description := "almoço", amount := 25,
      category := "Alimentação", type := TransactionType.expense }
    true "m1" "t1" "r1" "2024-01-01T00:00:00Z" "" state0
    (by decide) rfl rfl rfl

/-- C3 counterexample: with all three raw inputs absent, the submission
handler raises nothing to its caller — no `InvalidInputError` (or any
other error) is surfaced; the function silently returns. -/
theorem empty_input_counterexample :
    ¬ ((processSubmission (some user0) none none none ServiceBehavior.throws
        true "m1" "t1" "r1" "2024-01-01T00:00:00Z" "" state0).raised.isSome
        = true) := by
  decide

/-- C3 amended: if all three raw inputs are absent (or empty, which
JavaScript truthiness treats as absent), the submission is aborted
silently before any network call: no classifier request is sent, no
durable insert is issued, the ledger and chat history are unchanged,
and no error is surfaced to the caller.  Inside the gateway the
no-input error is thrown but caught by the gateway's own handler,
which converts it into the fixed fallback outcome. -/
theorem empty_input_silent_abort
    (user : Option UserProfile) (text image audio : Option String)
    (svc : ServiceBehavior) (saveSucceeds : Bool)
    (userMsgId txId replyMsgId nowIso persona : String) (s : AppState)
    (hist : List Transaction)
    (h : (truthyStr text || truthyStr image || truthyStr audio) = false) :
    processSubmission user text image audio svc saveSucceeds userMsgId txId
        replyMsgId nowIso persona s
      = { state := s, classifierCalled := false, insertIssued := false,
          warnings := [], raised := none } ∧
    processAttempt text image audio svc = Except.error "No input provided" ∧
    processInputWithGemini text image audio hist persona svc = fallbackResult := by
  have h1 : truthyStr text = false := by
    cases htx : truthyStr text <;> simp_all
  have h2 : truthyStr image = false := by
    cases him : truthyStr image <;> simp_all
  have h3 : truthyStr audio = false := by
    cases hau : truthyStr audio <;> simp_all
  have hparts : buildParts text image audio = [] := by
    simp [buildParts, h1, h2, h3]
  refine ⟨?_, ?_, ?_⟩
  · cases user with
    | none => rfl
    | some u => simp [processSubmission, h1, h2, h3]
  · simp [processAttempt, hparts]
  · simp [processInputWithGemini, processAttempt, hparts]

/-- Witness for C3's amended theorem at a concrete input. -/
theorem empty_input_silent_abort_witness :
    processSubmission (some user0) none none none ServiceBehavior.throws
        true "m1" "t1" "r1" "2024-01-01T00:00:00Z" "" state0
      = { state := state0, classifierCalled := false, insertIssued := false,
          warnings := [], raised := none } ∧
    processAttempt none none none ServiceBehavior.throws
      = Except.error "No input provided" ∧
    processInputWithGemini none none none [] "" ServiceBehavior.throws
      = fallbackResult :=
  empty_input_silent_abort (some user0) none none none ServiceBehavior.throws
    true "m1" "t1" "r1" "2024-01-01T00:00:00Z" "" state0 [] (by decide)

/-- C4: for every ledger and every Transaction present in it, when the
durable delete issued after the optimistic removal fails, the final
ledger is exactly the pre-removal list, so the Transaction is present
again with all fields identical. -/
theorem delete_failure_rollback (user : UserProfile) (id : String)
    (txs : List Transaction) (tx : Transaction) (h : tx ∈ txs) :
    (handleDeleteTransaction (some user) id true false txs).1 = txs ∧
    tx ∈ (handleDeleteTransaction (some user) id true false txs).1 :=
  ⟨rfl, h⟩

/-- Witness for C4 at a concrete one-element ledger. -/
theorem delete_failure_rollback_witness :
    (handleDeleteTransaction (some user0) "t1" true false
        [{ id := "t1", date := "2024-01-01", description := "pão",
           amount := 10, category := "Alimentação",
           type := TransactionType.expense, userId := some "user-1" }]).1
      = [{ id := "t1", date := "2024-01-01", description := "pão",
           amount := 10, category := "Alimentação",
           type := TransactionType.expense, userId := some "user-1" }] ∧
    ({ id := "t1", date := "2024-01-01", description := "pão",
       amount := 10, category := "Alimentação",
       type := TransactionType.expense, userId := some "user-1" } : Transaction)
      ∈ (handleDeleteTransaction (some user0) "t1" true false
        [{ id := "t1", date := "2024-01-01", description := "pão",
           amount := 10, category := "Alimentação",
           type := TransactionType.expense, userId := some "user-1" }]).1 :=
  delete_failure_rollback user0 "t1"
    [{ id := "t1", date := "2024-01-01", description := "pão",
       amount := 10, category := "Alimentação",
       type := TransactionType.expense, userId := some "user-1" }]
    { id := "t1", date := "2024-01-01", description := "pão",
      amount := 10, category := "Alimentação",
      type := TransactionType.expense, userId := some "user-1" }
    (List.mem_singleton.mpr rfl)

/-- C5: when the durable insert after an optimistic append fails, the
final state is identical to the state on a successful insert (the
appended Transaction is kept, the submission completes normally), the
failure appears only as the non-blocking warning, and nothing is
raised to the caller. -/
theorem append_failure_keeps_local_state
    (u : UserProfile) (text image audio : Option String)
    (svc : ServiceBehavior) (r : GeminiAnalysisResult) (td : TransactionData)
    (userMsgId txId replyMsgId nowIso persona : String) (s : AppState)
    (hin : (truthyStr text || truthyStr image || truthyStr audio) = true)
    (hr : processInputWithGemini text (imagePayload image) audio
      s.transactions persona svc = r)
    (hact : r.action = AnalysisAction.ADD_TRANSACTION)
    (hdata : r.transactionData = some td) :
    (processSubmission (some u) text image audio svc false userMsgId txId
        replyMsgId nowIso persona s).state
      = (processSubmission (some u) text image audio svc true userMsgId txId
        replyMsgId nowIso persona s).state ∧
    (∃ t, (processSubmission (some u) text image audio svc false userMsgId txId
        replyMsgId nowIso persona s).state.transactions
        = s.transactions ++ [t]) ∧
    (processSubmission (some u) text image audio svc false userMsgId txId
        replyMsgId nowIso persona s).warnings = [saveFailureWarning] ∧
    (processSubmission (some u) text image audio svc false userMsgId txId
        replyMsgId nowIso persona s).raised = none := by
  rw [processSubmission_add_eq u text image audio svc r td false
      userMsgId txId replyMsgId nowIso persona s hin hr hact hdata,
    processSubmission_add_eq u text image audio svc r td true
      userMsgId txId replyMsgId nowIso persona s hin hr hact hdata]
  exact ⟨rfl, ⟨mkNewTransaction u td txId nowIso, rfl⟩, rfl, rfl⟩

/-- Witness for C5 at a concrete input. -/
theorem append_failure_keeps_local_state_witness :
    (processSubmission (some user0) (some "almoço 25") none none
        (ServiceBehavior.ok respEmptyCategory) false "m1" "t1" "r1"
        "2024-01-01T00:00:00Z" "" state0).state
      = (processSubmission (some user0) (some "almoço 25") none none
        (ServiceBehavior.ok respEmptyCategory) true "m1" "t1" "r1"
        "2024-01-01T00:00:00Z" "" state0).state ∧
    (∃ t, (processSubmission (some user0) (some "almoço 25") none none
        (ServiceBehavior.ok respEmptyCategory) false "m1" "t1" "r1"
        "2024-01-01T00:00:00Z" "" state0).state.transactions
        = state0.transactions ++ [t]) ∧
    (processSubmission (some user0) (some "almoço 25") none none
        (ServiceBehavior.ok respEmptyCategory) false "m1" "t1" "r1"
        "2024-01-01T00:00:00Z" "" state0).warnings = [saveFailureWarning] ∧
    (processSubmission (some user0) (some "almoço 25") none none
        (ServiceBehavior.ok respEmptyCategory) false "m1" "t1" "r1"
        "2024-01-01T00:00:00Z" "" state0).raised = none :=
  append_failure_keeps_local_state user0 (some "almoço 25") none none
    (ServiceBehavior.ok respEmptyCategory) respEmptyCategory
    { description := "pão", amount := 30, category := "",
      type := TransactionType.expense }
    "m1" "t1" "r1" "2024-01-01T00:00:00Z" "" state0
    (by decide) rfl rfl rfl

/-- C9: for a classifier outcome with action = ADD_TRANSACTION but no
transactionData object, processSubmission appends nothing: the ledger
is unchanged, no durable insert is issued, and the model's only
addition to the chat history is the plain reply message; the response
schema does not require transactionData, so this outcome is reachable
through a schema-valid response. -/
theorem add_action_without_data_appends_nothing
    (u : UserProfile) (text image audio : Option String)
    (svc : ServiceBehavior) (r : GeminiAnalysisResult) (saveSucceeds : Bool)
    (userMsgId txId replyMsgId nowIso persona : String) (s : AppState)
    (hin : (truthyStr text || truthyStr image || truthyStr audio) = true)
    (hr : processInputWithGemini text (imagePayload image) audio
      s.transactions persona svc = r)
    (_hact : r.action = AnalysisAction.ADD_TRANSACTION)
    (hdata : r.transactionData = none) :
    (processSubmission (some u) text image audio svc saveSucceeds userMsgId
        txId replyMsgId nowIso persona s).state.transactions = s.transactions ∧
    (processSubmission (some u) text image audio svc saveSucceeds userMsgId
        txId replyMsgId nowIso persona s).insertIssued = false ∧
    (∃ um, (processSubmission (some u) text image audio svc saveSucceeds
        userMsgId txId replyMsgId nowIso persona s).state.chatHistory
        = s.chatHistory ++
          [um, { id := replyMsgId, role := Role.model, text := r.replyMessage,
                 imageUri := none, isAudio := false }] ∧
      um.role = Role.user) ∧
    "transactionData" ∉ analysisSchemaRequired := by
  rw [processSubmission_chat_eq u text image audio svc r saveSucceeds
    userMsgId txId replyMsgId nowIso persona s hin hr (Or.inr hdata)]
  exact ⟨rfl, rfl, ⟨mkUserMessage userMsgId text image audio, rfl, rfl⟩, by decide⟩

/-- Witness for C9 at a concrete input. -/
theorem add_action_without_data_appends_nothing_witness :
    (processSubmission (some user0) (some "oi") none none
        (ServiceBehavior.ok
          { action := AnalysisAction.ADD_TRANSACTION, transactionData := none,
            replyMessage := "Olá!" })
        true "m1" "t1" "r1" "2024-01-01T00:00:00Z" "" state0).state.transactions
      = state0.transactions ∧
    (processSubmission (some user0) (some "oi") none none
        (ServiceBehavior.ok
          { action := AnalysisAction.ADD_TRANSACTION, transactionData := none,
            replyMessage := "Olá!" })
        true "m1" "t1" "r1" "2024-01-01T00:00:00Z" "" state0).insertIssued
      = false ∧
    (∃ um, (processSubmission (some user0) (some "oi") none none
        (ServiceBehavior.ok
          { action := AnalysisAction.ADD_TRANSACTION, transactionData := none,
            replyMessage := "Olá!" })
        true "m1" "t1" "r1" "2024-01-01T00:00:00Z" "" state0).state.chatHistory
        = state0.chatHistory ++
          [um, { id := "r1", role := Role.model, text := "Olá!",
                 imageUri := none, isAudio := false }] ∧
      um.role = Role.user) ∧
    "transactionData" ∉ analysisSchemaRequired :=
  add_action_without_data_appends_nothing user0 (some "oi") none none
    (ServiceBehavior.ok
      { action := AnalysisAction.ADD_TRANSACTION, transactionData := none,
        replyMessage := "Olá!" })
    { action := AnalysisAction.ADD_TRANSACTION, transactionData := none,
      replyMessage := "Olá!" }
    true "m1" "t1" "r1" "2024-01-01T00:00:00Z" "" state0
    (by decide) rfl rfl rfl

/-- Filtering out the owner's rows is idempotent. -/
theorem filter_other_idem (uid : String) (db : List Row) :
    ((db.filter (fun row => row.user_id != uid)).filter
        (fun row => row.user_id != uid))
      = db.filter (fun row => row.user_id != uid) := by
  induction db with
  | nil => rfl
  | cons r t ih =>
    by_cases h : r.user_id = uid <;>
      simp [List.filter_cons, bne_iff_ne, h, ih]

/-- After removing the owner's rows, selecting the owner's rows yields
nothing. -/
theorem filter_own_after_other (uid : String) (db : List Row) :
    ((db.filter (fun row => row.user_id != uid)).filter
        (fun row => row.user_id == uid)) = [] := by
  induction db with
  | nil => rfl
  | cons r t ih =>
    by_cases h : r.user_id = uid <;>
      simp [List.filter_cons, bne_iff_ne, beq_iff_eq, h, ih]

/-- Every insert payload built from a Transaction list carries the
session id, so none of them survives the other-owner filter. -/
theorem filter_other_map_payload (user : UserProfile) (txs : List Transaction) :
    ((txs.map (SupabaseAPI.payloadOfTransaction user)).filter
        (fun row => row.user_id != user.id)) = [] := by
  induction txs with
  | nil => rfl
  | cons t ts ih =>
    simp [List.filter_cons, SupabaseAPI.payloadOfTransaction, ih]

/-- Every insert payload built from an imported raw list carries the
session id, so none of them survives the other-owner filter. -/
theorem filter_other_map_payloadRaw (user : UserProfile) (rs : List RawRecord) :
    ((rs.map (SupabaseAPI.payloadOfRaw user)).filter
        (fun row => row.user_id != user.id)) = [] := by
  induction rs with
  | nil => rfl
  | cons r rs ih =>
    simp [List.filter_cons, SupabaseAPI.payloadOfRaw, ih]

/-- Re-applying `updateAllRaw` with the same list is a no-op. -/
theorem updateAllRaw_idem (user : UserProfile) (rs : List RawRecord)
    (db : List Row) :
    SupabaseAPI.updateAllRaw user rs (SupabaseAPI.updateAllRaw user rs db)
      = SupabaseAPI.updateAllRaw user rs db := by
  cases rs with
  | nil => simp [SupabaseAPI.updateAllRaw, filter_other_idem]
  | cons r rest =>
    simp [SupabaseAPI.updateAllRaw, List.filter_append, filter_other_idem,
      filter_other_map_payloadRaw]
    exact ⟨rfl, fun a _ => rfl⟩

/-- C6: the import is performed only when the parsed content is an array
whose every element passes the truthiness validation on id, amount and
date; whenever the array validation fails — or the content is not an
array, or parsing threw — the in-memory ledger and the remote table are
left unchanged and nothing is imported. -/
theorem import_validation_gate
    (user : Option UserProfile) (haveFile : Bool)
    (parsed : Except Unit ImportedJson) (confirmed : Bool)
    (mem : List RawRecord) (db : List Row) :
    ((handleImportData user haveFile parsed confirmed mem db).imported = true →
      ∃ xs, parsed = Except.ok (ImportedJson.arr xs) ∧
        xs.all importRecordValid = true) ∧
    (∀ xs, parsed = Except.ok (ImportedJson.arr xs) →
      xs.all importRecordValid = false →
      (handleImportData user haveFile parsed confirmed mem db).mem = mem ∧
      (handleImportData user haveFile parsed confirmed mem db).db = db ∧
      (handleImportData user haveFile parsed confirmed mem db).imported = false) ∧
    (∀ e, parsed = Except.error e →
      (handleImportData user haveFile parsed confirmed mem db).mem = mem ∧
      (handleImportData user haveFile parsed confirmed mem db).db = db ∧
      (handleImportData user haveFile parsed confirmed mem db).imported = false) ∧
    (parsed = Except.ok ImportedJson.nonArray →
      (handleImportData user haveFile parsed confirmed mem db).mem = mem ∧
      (handleImportData user haveFile parsed confirmed mem db).db = db ∧
      (handleImportData user haveFile parsed confirmed mem db).imported = false) := by
  cases hf : haveFile with
  | false =>
    refine ⟨?_, ?_, ?_, ?_⟩ <;> simp [handleImportData]
  | true =>
    cases user with
    | none => refine ⟨?_, ?_, ?_, ?_⟩ <;> simp [handleImportData]
    | some u =>
      cases parsed with
      | error e => refine ⟨?_, ?_, ?_, ?_⟩ <;> simp [handleImportData]
      | ok j =>
        cases j with
        | nonArray => refine ⟨?_, ?_, ?_, ?_⟩ <;> simp [handleImportData]
        | arr xs =>
          cases hv : xs.all importRecordValid with
          | false => refine ⟨?_, ?_, ?_, ?_⟩ <;> simp [handleImportData, hv]
          | true =>
            cases confirmed with
            | false => refine ⟨?_, ?_, ?_, ?_⟩ <;> simp [handleImportData, hv]
            | true =>
              refine ⟨fun _ => ⟨xs, rfl, hv⟩, ?_, ?_, ?_⟩
              · intro ys hys hall
                have hyx : ys = xs := by
                  injection hys with h
                  injection h with h2
                  exact h2.symm
                subst hyx
                rw [hv] at hall
                cases hall
              · intro e he
                simp at he
              · intro he
                simp at he

/-- Witness for C6 at concrete inputs: an import whose only element
misses amount and date is rejected and changes nothing. -/
theorem import_validation_gate_witness :
    ((handleImportData (some user0) true
        (Except.ok (ImportedJson.arr
          [{ id := some "1", date := none, description := none, amount := none,
             category := none, type := none, userId := none }]))
        true [] []).imported = true →
      ∃ xs, (Except.ok (ImportedJson.arr
          [{ id := some "1", date := none, description := none, amount := none,
             category := none, type := none, userId := none }])
          : Except Unit ImportedJson) = Except.ok (ImportedJson.arr xs) ∧
        xs.all importRecordValid = true) ∧
    ([{ id := some "1", date := none, description := none, amount := none,
        category := none, type := none, userId := none }] : List RawRecord).all
        importRecordValid = false ∧
    (handleImportData (some user0) true
        (Except.ok (ImportedJson.arr
          [{ id := some "1", date := none, description := none, amount := none,
             category := none, type := none, userId := none }]))
        true [] []).mem = [] ∧
    (handleImportData (some user0) true
        (Except.ok (ImportedJson.arr
          [{ id := some "1", date := none, description := none, amount := none,
             category := none, type := none, userId := none }]))
        true [] []).db = [] ∧
    (handleImportData (some user0) true
        (Except.ok (ImportedJson.arr
          [{ id := some "1", date := none, description := none, amount := none,
             category := none, type := none, userId := none }]))
        true [] []).imported = false := by
  have h := import_validation_gate (some user0) true
    (Except.ok (ImportedJson.arr
      [{ id := some "1", date := none, description := none, amount := none,
         category := none, type := none, userId := none }]))
    true [] []
  have hrej := h.2.1
    [{ id := some "1", date := none, description := none, amount := none,
       category := none, type := none, userId := none }] rfl (by decide)
  exact ⟨h.1, by decide, hrej.1, hrej.2.1, hrej.2.2⟩

/-- C10: the import validation tests id, amount and date by JavaScript
truthiness, so a backup array containing a record with amount 0 (or an
empty-string id or date) is rejected as a whole: nothing is imported
and both the in-memory ledger and the remote table are unchanged, even
though amount 0 satisfies the data model's amount >= 0 invariant. -/
theorem import_rejects_zero_amount
    (user : Option UserProfile) (haveFile confirmed : Bool)
    (mem : List RawRecord) (db : List Row) (xs : List RawRecord)
    (r : RawRecord) (hmem : r ∈ xs)
    (hbad : r.amount = some 0 ∨ r.id = some "" ∨ r.date = some "") :
    (handleImportData user haveFile (Except.ok (ImportedJson.arr xs))
        confirmed mem db).mem = mem ∧
    (handleImportData user haveFile (Except.ok (ImportedJson.arr xs))
        confirmed mem db).db = db ∧
    (handleImportData user haveFile (Except.ok (ImportedJson.arr xs))
        confirmed mem db).imported = false := by
  have hrv : importRecordValid r = false := by
    rcases hbad with h | h | h <;>
      simp [importRecordValid, truthyStr, truthyNum, h]
  have hv : xs.all importRecordValid = false := by
    cases hall : xs.all importRecordValid with
    | false => rfl
    | true =>
      have := List.all_eq_true.mp hall r hmem
      rw [hrv] at this
      cases this
  cases haveFile with
  | false => simp [handleImportData]
  | true =>
    cases user with
    | none => simp [handleImportData]
    | some u => simp [handleImportData, hv]

/-- Witness for C10: a singleton backup whose record has amount 0 but
well-formed id and date is rejected, leaving both stores unchanged. -/
theorem import_rejects_zero_amount_witness :
    (handleImportData (some user0) true
        (Except.ok (ImportedJson.arr
          [{ id := some "1", date := some "2024-01-01T00:00:00Z",
             description := some "x", amount := some 0,
             category := some "y", type := some TransactionType.income,
             userId := none }]))
        true [] []).mem = [] ∧
    (handleImportData (some user0) true
        (Except.ok (ImportedJson.arr
          [{ id := some "1", date := some "2024-01-01T00:00:00Z",
             description := some "x", amount := some 0,
             category := some "y", type := some TransactionType.income,
             userId := none }]))
        true [] []).db = [] ∧
    (handleImportData (some user0) true
        (Except.ok (ImportedJson.arr
          [{ id := some "1", date := some "2024-01-01T00:00:00Z",
             description := some "x", amount := some 0,
             category := some "y", type := some TransactionType.income,
             userId := none }]))
        true [] []).imported = false :=
  import_rejects_zero_amount (some user0) true true [] []
    [{ id := some "1", date := some "2024-01-01T00:00:00Z",
       description := some "x", amount := some 0,
       category := some "y", type := some TransactionType.income,
       userId := none }]
    { id := some "1", date := some "2024-01-01T00:00:00Z",
      description := some "x", amount := some 0,
      category := some "y", type := some TransactionType.income,
      userId := none }
    (List.mem_singleton.mpr rfl) (Or.inl rfl)

/-- C7: every remote persistence call is scoped by the current session
id: the insert payload's user_id is the session id regardless of the
Transaction's own userId, reads return only records of the session id,
deletes remove a row only when both the record id and the session id
match, and no operation (insert, delete, bulk replace) changes the rows
belonging to any other owner. -/
theorem api_owner_scoping
    (user : UserProfile) (tx : Transaction) (rid : String)
    (txs : List Transaction) (db : List Row) :
    (SupabaseAPI.saveTransaction user tx db
        = db ++ [SupabaseAPI.payloadOfTransaction user tx] ∧
      (SupabaseAPI.payloadOfTransaction user tx).user_id = user.id) ∧
    (∀ t ∈ SupabaseAPI.getTransactions user db, t.userId = some user.id) ∧
    ((SupabaseAPI.saveTransaction user tx db).filter
        (fun row => row.user_id != user.id)
      = db.filter (fun row => row.user_id != user.id)) ∧
    ((SupabaseAPI.deleteTransaction user rid db).filter
        (fun row => row.user_id != user.id)
      = db.filter (fun row => row.user_id != user.id)) ∧
    (∀ row ∈ db, ¬(row.id = some rid ∧ row.user_id = user.id) →
      row ∈ SupabaseAPI.deleteTransaction user rid db) ∧
    ((SupabaseAPI.updateAllTransactions user txs db).filter
        (fun row => row.user_id != user.id)
      = db.filter (fun row => row.user_id != user.id)) := by
  refine ⟨⟨rfl, rfl⟩, ?_, ?_, ?_, ?_, ?_⟩
  · intro t ht
    simp only [SupabaseAPI.getTransactions, List.mem_map, List.mem_filter] at ht
    obtain ⟨row, ⟨-, heq⟩, rfl⟩ := ht
    have : row.user_id = user.id := by simpa using heq
    simp [this]
  · simp [SupabaseAPI.saveTransaction, List.filter_append,
      SupabaseAPI.payloadOfTransaction]
  · induction db with
    | nil => rfl
    | cons row t ih =>
      by_cases h : row.user_id = user.id <;>
        by_cases h2 : row.id = some rid <;>
        simp [SupabaseAPI.deleteTransaction, List.filter_cons, bne_iff_ne,
          beq_iff_eq, h, h2] at ih ⊢ <;>
        simpa [SupabaseAPI.deleteTransaction] using ih
  · intro row hrow hcond
    simp only [SupabaseAPI.deleteTransaction, List.mem_filter]
    refine ⟨hrow, ?_⟩
    by_cases h1 : row.id = some rid <;> by_cases h2 : row.user_id = user.id
    · exact absurd ⟨h1, h2⟩ hcond
    all_goals simp [h1, h2]
  · cases txs with
    | nil => simp [SupabaseAPI.updateAllTransactions, filter_other_idem]
    | cons t ts =>
      simp [SupabaseAPI.updateAllTransactions, List.filter_append,
        filter_other_idem, filter_other_map_payload]
      exact ⟨rfl, fun a _ => rfl⟩

/-- Witness for C7 at a concrete database. -/
theorem api_owner_scoping_witness :
    ((SupabaseAPI.saveTransaction user0
        { id := "t1", date := "2024-01-01", description := "pão",
          amount := 10, category := "Alimentação",
          type := TransactionType.expense, userId := some "someone-else" } []
        = [] ++ [SupabaseAPI.payloadOfTransaction user0
          { id := "t1", date := "2024-01-01", description := "pão",
            amount := 10, category := "Alimentação",
            type := TransactionType.expense, userId := some "someone-else" }]) ∧
      (SupabaseAPI.payloadOfTransaction user0
        { id := "t1", date := "2024-01-01", description := "pão",
          amount := 10, category := "Alimentação",
          type := TransactionType.expense,
          userId := some "someone-else" }).user_id = user0.id) ∧
    (∀ t ∈ SupabaseAPI.getTransactions user0 [], t.userId = some user0.id) ∧
    ((SupabaseAPI.saveTransaction user0
        { id := "t1", date := "2024-01-01", description := "pão",
          amount := 10, category := "Alimentação",
          type := TransactionType.expense, userId := some "someone-else" } []).filter
        (fun row => row.user_id != user0.id)
      = List.filter (fun row => row.user_id != user0.id) []) ∧
    ((SupabaseAPI.deleteTransaction user0 "t1" []).filter
        (fun row => row.user_id != user0.id)
      = List.filter (fun row => row.user_id != user0.id) []) ∧
    (∀ row ∈ ([] : List Row), ¬(row.id = some "t1" ∧ row.user_id = user0.id) →
      row ∈ SupabaseAPI.deleteTransaction user0 "t1" []) ∧
    ((SupabaseAPI.updateAllTransactions user0 [] []).filter
        (fun row => row.user_id != user0.id)
      = List.filter (fun row => row.user_id != user0.id) []) :=
  api_owner_scoping user0
    { id := "t1", date := "2024-01-01", description := "pão",
      amount := 10, category := "Alimentação",
      type := TransactionType.expense, userId := some "someone-else" }
    "t1" [] []

/-- C8: bulk replacement is idempotent under re-apply: replacing with
the empty list then reading back yields the empty sequence; applying
`updateAllTransactions` twice with the same list leaves the remote
table exactly as one application does; and re-running the import-based
replacement with the same parsed file reproduces the same in-memory
snapshot and remote table. -/
theorem replace_all_idempotent
    (user : UserProfile) (X : List Transaction) (db : List Row)
    (parsed : Except Unit ImportedJson) (mem : List RawRecord) :
    SupabaseAPI.getTransactions user
        (SupabaseAPI.updateAllTransactions user [] db) = [] ∧
    SupabaseAPI.updateAllTransactions user X
        (SupabaseAPI.updateAllTransactions user X db)
      = SupabaseAPI.updateAllTransactions user X db ∧
    (handleImportData (some user) true (Except.ok (ImportedJson.arr []))
        true mem db).mem = [] ∧
    handleImportData (some user) true parsed true
        (handleImportData (some user) true parsed true mem db).mem
        (handleImportData (some user) true parsed true mem db).db
      = handleImportData (some user) true parsed true mem db := by
  refine ⟨?_, ?_, rfl, ?_⟩
  · simp [SupabaseAPI.getTransactions, SupabaseAPI.updateAllTransactions,
      filter_own_after_other]
  · cases X with
    | nil => simp [SupabaseAPI.updateAllTransactions, filter_other_idem]
    | cons t ts =>
      simp [SupabaseAPI.updateAllTransactions, List.filter_append,
        filter_other_idem, filter_other_map_payload]
      exact ⟨rfl, fun a _ => rfl⟩
  · cases parsed with
    | error e => simp [handleImportData]
    | ok j =>
      cases j with
      | nonArray => simp [handleImportData]
      | arr xs =>
        cases hv : xs.all importRecordValid with
        | false => simp [handleImportData, hv]
        | true => simp [handleImportData, hv, updateAllRaw_idem]
